import Mathlib

/-!
Verification of the NVAITC notebook collection.

The repository consists of Jupyter notebooks that call GPU and CPU numerical
libraries.  We embed two levels of the notebooks:

1.  A statement-level trace of every notebook (inductive type Stmt below).
    Each code cell is transcribed, in execution order, into the list of
    statements it performs: library calls, variable assignments, wall-clock
    timing instrumentation, printing, plotting, raising an exception, and
    file reads and writes.  Function definitions are recorded as a defFun
    statement; the body of a notebook-defined function is expanded at the
    point where the notebook actually calls it.

2.  An exact functional embedding of the individual cells that the claims
    reason about: the CuPy timing cells, the k-means and k-NN comparison
    cells, the xgboost import guard, and the from-scratch PCA pipeline.
-/

/-- One statement of a notebook cell, in execution order. -/
inductive Stmt where
  /-- an import statement bringing a library module into scope -/
  | importModule (m : String)
  /-- assignment of a variable or parameter -/
  | assignVar (x : String)
  /-- a call into an external library public API -/
  | libCall (f : String)
  /-- in-place or broadcast array arithmetic such as x_cpu *= 5 or C = A - M -/
  | arithOp
  /-- other pure-Python expression logic (comprehension, lambda, bare display) -/
  | pyExpr
  /-- a notebook-defined Python function definition -/
  | defFun (f : String)
  /-- s = time.time(), the start timestamp of a wall-clock timing block -/
  | timeStartStmt
  /-- e = time.time(), the stop timestamp of a wall-clock timing block -/
  | timeStopStmt
  /-- a cell timed by the Jupyter cell magic that reports wall time -/
  | timeMagic
  /-- cp.cuda.Stream.null.synchronize() -/
  | syncStmt
  /-- print(...) -/
  | printCall
  /-- a matplotlib plotting call -/
  | plotCall
  /-- a raise statement executed with the given message -/
  | raiseStmt (msg : String)
  /-- a statement that writes the file at the given path on disk -/
  | fileWrite (path : String)
  /-- a statement that reads the file at the given path from disk -/
  | fileRead (path : String)
  deriving DecidableEq, Repr

/-- A notebook: its path in the repository and its statement trace. -/
structure Notebook where
  name : String
  stmts : List Stmt
  deriving DecidableEq, Repr

/-- Trace of src/CuPy/Intro_to_CuPy.ipynb.  Six timing sections, each with a
NumPy (CPU) block and a CuPy (GPU) block; the final cell combines a creation
and a multiplication section.  In the multiply cells of the last two sections
the source omits the assignment cpu_time = e - s. -/
def introToCuPy : Notebook where
  name := "CuPy/Intro_to_CuPy.ipynb"
  stmts :=
    [.importModule "numpy", .importModule "cupy", .importModule "time"] ++
    -- array creation, shape (1000,1000,100)
    [.timeStartStmt, .libCall "numpy.ones", .timeStopStmt, .assignVar "cpu_time", .printCall,
     .timeStartStmt, .libCall "cupy.ones", .syncStmt, .timeStopStmt, .assignVar "gpu_time",
     .printCall, .printCall] ++
    -- multiply by 5
    [.timeStartStmt, .arithOp, .timeStopStmt, .assignVar "cpu_time", .printCall,
     .timeStartStmt, .arithOp, .syncStmt, .timeStopStmt, .assignVar "gpu_time",
     .printCall, .printCall] ++
    -- working with multiple arrays
    [.timeStartStmt, .arithOp, .arithOp, .arithOp, .timeStopStmt, .assignVar "cpu_time", .printCall,
     .timeStartStmt, .arithOp, .arithOp, .arithOp, .syncStmt, .timeStopStmt, .assignVar "gpu_time",
     .printCall, .printCall] ++
    -- creation, shape (100,100,100)
    [.timeStartStmt, .libCall "numpy.ones", .timeStopStmt, .assignVar "cpu_time", .printCall,
     .timeStartStmt, .libCall "cupy.ones", .syncStmt, .timeStopStmt, .assignVar "gpu_time",
     .printCall, .printCall] ++
    -- multiply by 5, shape (100,100,100)
    [.timeStartStmt, .arithOp, .timeStopStmt, .assignVar "cpu_time", .printCall,
     .timeStartStmt, .arithOp, .syncStmt, .timeStopStmt, .assignVar "gpu_time",
     .printCall, .printCall] ++
    -- creation, shape (1000,100,100)
    [.timeStartStmt, .libCall "numpy.ones", .timeStopStmt, .assignVar "cpu_time", .printCall,
     .timeStartStmt, .libCall "cupy.ones", .syncStmt, .timeStopStmt, .assignVar "gpu_time",
     .printCall, .printCall] ++
    -- multiply by 5, shape (1000,100,100): cpu_time is NOT reassigned in the source
    [.timeStartStmt, .arithOp, .timeStopStmt, .printCall,
     .timeStartStmt, .arithOp, .syncStmt, .timeStopStmt, .assignVar "gpu_time",
     .printCall, .printCall] ++
    -- combined cell, shape (1000,1000,100): creation half
    [.timeStartStmt, .libCall "numpy.ones", .timeStopStmt, .assignVar "cpu_time", .printCall,
     .timeStartStmt, .libCall "cupy.ones", .syncStmt, .timeStopStmt, .assignVar "gpu_time",
     .printCall, .printCall] ++
    -- combined cell: multiply half, cpu_time again NOT reassigned in the source
    [.timeStartStmt, .arithOp, .timeStopStmt, .printCall,
     .timeStartStmt, .arithOp, .syncStmt, .timeStopStmt, .assignVar "gpu_time",
     .printCall, .printCall]

/-- Trace of src/CuPy/Dask_and__array_function__protocol.ipynb. -/
def daskArrayFunctionDemo : Notebook where
  name := "CuPy/Dask_and__array_function__protocol.ipynb"
  stmts :=
    [.importModule "numpy", .importModule "dask.array",
     .libCall "numpy.random.random", .assignVar "x",
     .libCall "dask.array.from_array", .assignVar "d", .libCall "numpy.linalg.svd",
     .importModule "numpy", .importModule "cupy", .importModule "dask.array",
     .libCall "cupy.random.random", .libCall "dask.array.from_array",
     .libCall "numpy.linalg.svd"] ++
    [.importModule "numpy", .importModule "cupy", .importModule "dask.array",
     .libCall "numpy.random.random", .libCall "cupy.array",
     .libCall "dask.array.from_array", .libCall "dask.array.from_array",
     .timeMagic, .libCall "numpy.linalg.svd",
     .importModule "dask", .libCall "dask.array.linalg.svd", .libCall "dask.compute",
     .timeMagic, .libCall "numpy.linalg.svd", .libCall "dask.compute",
     .timeMagic, .libCall "numpy.linalg.svd",
     .timeMagic, .libCall "numpy.linalg.svd", .libCall "dask.compute"] ++
    [.importModule "numpy", .importModule "matplotlib.pyplot", .importModule "sklearn.linear_model",
     .assignVar "N", .libCall "numpy.random.random", .libCall "numpy.random.normal",
     .libCall "sklearn.linear_model.LinearRegression",
     .timeMagic, .libCall "LinearRegression.fit",
     .timeMagic, .libCall "numpy.linspace", .libCall "LinearRegression.predict",
     .plotCall, .plotCall, .plotCall, .plotCall, .plotCall] ++
    [.importModule "numpy", .importModule "dask_glm.estimators", .importModule "matplotlib.pyplot",
     .assignVar "N", .libCall "numpy.random.random", .libCall "numpy.random.normal",
     .libCall "dask_glm.estimators.LinearRegression",
     .timeMagic, .libCall "LinearRegression.fit",
     .timeMagic, .libCall "numpy.linspace", .libCall "LinearRegression.predict"]

/-- Trace of the k-means half of src/Notebooks/kmeans_demo.ipynb. -/
def kmeansDemo : Notebook where
  name := "Notebooks/kmeans_demo.ipynb (k-means demo)"
  stmts :=
    [.importModule "cudf", .importModule "cupy", .importModule "matplotlib.pyplot",
     .importModule "cuml.cluster", .importModule "cuml.datasets",
     .importModule "sklearn.cluster", .importModule "sklearn.metrics",
     .assignVar "n_samples", .assignVar "n_features", .assignVar "n_clusters",
     .assignVar "random_state",
     .libCall "cuml.datasets.make_blobs", .libCall "cudf.DataFrame", .libCall "cudf.Series",
     .libCall "DataFrame.to_pandas", .libCall "Series.to_pandas"] ++
    [.timeMagic, .libCall "sklearn.cluster.KMeans", .libCall "KMeans.fit",
     .timeMagic, .libCall "cuml.cluster.KMeans", .libCall "KMeans.fit",
     .plotCall, .plotCall, .plotCall, .plotCall, .plotCall, .plotCall,
     .timeMagic, .libCall "sklearn.metrics.adjusted_rand_score",
     .libCall "sklearn.metrics.adjusted_rand_score",
     .assignVar "threshold", .assignVar "passed", .printCall]

/-- Trace of the forest-inference half of src/Notebooks/kmeans_demo.ipynb.
The bodies of train_xgboost_model and predict_xgboost_model are expanded at
the cells that call them; bst.save_model(model_path) writes the file
xgb.model and ForestInference.load(filename=model_path) reads it back. -/
def forestInferenceDemo : Notebook where
  name := "Notebooks/kmeans_demo.ipynb (forest inference demo)"
  stmts :=
    [.importModule "numpy", .importModule "os", .importModule "cuml.common.import_utils",
     .importModule "cuml", .importModule "sklearn.datasets", .importModule "sklearn.metrics",
     .importModule "sklearn.model_selection",
     .libCall "cuml.common.import_utils.has_xgboost",
     .raiseStmt "Please install xgboost using the conda package, Use conda install -c conda-forge xgboost command to install xgboost",
     .importModule "xgboost",
     .defFun "train_xgboost_model", .defFun "predict_xgboost_model",
     .assignVar "n_rows", .assignVar "n_columns", .assignVar "n_categories",
     .libCall "numpy.random.RandomState", .assignVar "model_path", .assignVar "num_rounds"] ++
    [.libCall "sklearn.datasets.make_classification", .assignVar "train_size",
     .libCall "ndarray.astype", .libCall "ndarray.astype",
     .libCall "sklearn.model_selection.train_test_split"] ++
    -- call of train_xgboost_model(X_train, y_train, num_rounds, model_path)
    [.assignVar "params", .libCall "xgboost.DMatrix", .libCall "xgboost.train",
     .libCall "Booster.save_model", .fileWrite "xgb.model"] ++
    -- call of predict_xgboost_model(X_validation, y_validation, xgboost_model)
    [.timeMagic, .libCall "xgboost.DMatrix", .libCall "Booster.predict", .libCall "numpy.around",
     .libCall "cuml.ForestInference.load", .fileRead "xgb.model",
     .timeMagic, .libCall "ForestInference.predict",
     .printCall, .printCall, .arithOp, .libCall "ndarray.all", .printCall]

/-- Trace of src/Notebooks/Others/Principal Component Analysis from Scratch.ipynb. -/
def pcaFromScratchNb : Notebook where
  name := "Notebooks/Others/Principal Component Analysis from Scratch.ipynb"
  stmts :=
    [.importModule "numpy", .importModule "numpy.linalg",
     .libCall "numpy.array", .printCall,
     .libCall "numpy.mean", .printCall,
     .arithOp, .printCall,
     .libCall "numpy.cov", .printCall,
     .libCall "numpy.linalg.eig", .printCall, .printCall, .printCall, .printCall,
     .libCall "ndarray.dot", .printCall] ++
    [.importModule "numpy", .importModule "sklearn.decomposition",
     .libCall "numpy.array", .printCall,
     .libCall "sklearn.decomposition.PCA", .libCall "PCA.fit",
     .printCall, .printCall,
     .libCall "PCA.transform", .printCall]

/-- Trace of src/unnamed/part_000, the nearest-neighbors comparison notebook. -/
def knnDemo : Notebook where
  name := "unnamed/part_000 (nearest neighbors demo)"
  stmts :=
    [.importModule "cudf", .importModule "numpy", .importModule "cuml.datasets",
     .importModule "cuml.neighbors", .importModule "sklearn.neighbors",
     .assignVar "n_samples", .assignVar "n_features", .assignVar "n_query",
     .assignVar "n_neighbors", .assignVar "random_state",
     .timeMagic, .libCall "cuml.datasets.make_blobs", .libCall "cudf.DataFrame",
     .libCall "DataFrame.to_pandas"] ++
    [.timeMagic, .libCall "sklearn.neighbors.NearestNeighbors", .libCall "NearestNeighbors.fit",
     .timeMagic, .libCall "NearestNeighbors.kneighbors",
     .timeMagic, .libCall "cuml.neighbors.NearestNeighbors", .libCall "NearestNeighbors.fit",
     .timeMagic, .libCall "NearestNeighbors.kneighbors",
     .pyExpr, .pyExpr,
     .libCall "numpy.allclose", .assignVar "passed", .printCall,
     .pyExpr, .pyExpr,
     .libCall "numpy.sort", .libCall "numpy.sort", .pyExpr, .assignVar "passed", .printCall]

/-- Trace of src/unnamed/part_001, the feature-selection notebook.  Each of its
four sections re-reads pima-indians-diabetes.csv with pandas.read_csv. -/
def featureSelectionNb : Notebook where
  name := "unnamed/part_001 (feature selection notebook)"
  stmts :=
    [.importModule "pandas", .importModule "numpy", .importModule "sklearn.feature_selection",
     .assignVar "filename", .assignVar "names",
     .libCall "pandas.read_csv", .fileRead "pima-indians-diabetes.csv",
     .assignVar "array", .assignVar "X", .assignVar "Y",
     .libCall "sklearn.feature_selection.SelectKBest", .libCall "SelectKBest.fit",
     .libCall "numpy.set_printoptions", .printCall,
     .libCall "SelectKBest.transform", .printCall] ++
    [.importModule "pandas", .importModule "sklearn.feature_selection",
     .importModule "sklearn.linear_model",
     .assignVar "names", .libCall "pandas.read_csv", .fileRead "pima-indians-diabetes.csv",
     .assignVar "array", .assignVar "X", .assignVar "Y",
     .libCall "sklearn.linear_model.LogisticRegression", .libCall "sklearn.feature_selection.RFE",
     .libCall "RFE.fit", .printCall, .printCall, .printCall] ++
    [.importModule "numpy", .importModule "pandas", .importModule "sklearn.decomposition",
     .assignVar "names", .libCall "pandas.read_csv", .fileRead "pima-indians-diabetes.csv",
     .assignVar "array", .assignVar "X", .assignVar "Y",
     .libCall "sklearn.decomposition.PCA", .libCall "PCA.fit",
     .printCall, .printCall] ++
    [.importModule "pandas", .importModule "sklearn.ensemble",
     .assignVar "names", .libCall "pandas.read_csv", .fileRead "pima-indians-diabetes.csv",
     .assignVar "array", .assignVar "X", .assignVar "Y",
     .libCall "sklearn.ensemble.ExtraTreesClassifier", .libCall "ExtraTreesClassifier.fit",
     .printCall]

/-- All notebooks of the repository, in directory order. -/
def notebooks : List Notebook :=
  [introToCuPy, daskArrayFunctionDemo, kmeansDemo, forestInferenceDemo,
   pcaFromScratchNb, knnDemo, featureSelectionNb]

/-- A notebook times library calls with wall-clock instrumentation: it either
records start and stop timestamps with time.time() or uses the timing cell
magic. -/
def timesLibraryCalls (nb : Notebook) : Bool :=
  ((nb.stmts.any fun s => s == Stmt.timeStartStmt) &&
    (nb.stmts.any fun s => s == Stmt.timeStopStmt)) ||
  (nb.stmts.any fun s => s == Stmt.timeMagic)

/-- A notebook prints or plots results. -/
def printsOrPlots (nb : Notebook) : Bool :=
  nb.stmts.any fun s => s == Stmt.printCall || s == Stmt.plotCall

/-- Whether a statement is a raise statement of the notebook code itself. -/
def isRaiseStmt : Stmt → Bool
  | .raiseStmt _ => true
  | _ => false

/-- Whether a statement writes a file on disk. -/
def isFileWriteStmt : Stmt → Bool
  | .fileWrite _ => true
  | _ => false

/-- A notebook writes state that outlives the kernel: its trace contains a
file write. -/
def writesPersistentState (nb : Notebook) : Bool :=
  nb.stmts.any isFileWriteStmt

/-- The paths of all files a notebook writes, in order. -/
def fileWritesOf (nb : Notebook) : List String :=
  nb.stmts.filterMap fun s =>
    match s with
    | .fileWrite p => some p
    | _ => none

/-- The paths of all files a notebook reads, in order. -/
def fileReadsOf (nb : Notebook) : List String :=
  nb.stmts.filterMap fun s =>
    match s with
    | .fileRead p => some p
    | _ => none

/-!
Exact embeddings of individual cells.
-/

/-- The xgboost availability guard cell of the forest-inference notebook:
if has_xgboost(): import xgboost as xgb, else raise ImportError(...).
The input is the value returned by cuml.common.import_utils.has_xgboost();
ok means execution continues, error is the raised ImportError message. -/
def xgbImportCell (has_xgboost : Bool) : Except String Unit :=
  if has_xgboost then Except.ok () else
    Except.error "Please install xgboost using the conda package, Use conda install -c conda-forge xgboost command to install xgboost"

namespace KmeansDemo

/-- threshold = 1e-4 from the k-means comparison cell. -/
def threshold : ℚ := 1 / 10000

/-- passed = (cuml_score - sk_score) < threshold.  The adjusted-rand scores
are modelled as exact rationals. -/
def passed (cuml_score sk_score : ℚ) : Bool :=
  decide (cuml_score - sk_score < threshold)

/-- The string printed by the comparison cell. -/
def verdict (cuml_score sk_score : ℚ) : String :=
  "compare kmeans: cuml vs sklearn labels_ are " ++
    (if passed cuml_score sk_score then "equal" else "NOT equal")

end KmeansDemo

namespace KnnDemo

/-- n_samples = 2**17 from the parameter cell of the nearest-neighbors notebook. -/
def n_samples : Nat := 2 ^ 17

/-- n_features = 40 from the parameter cell. -/
def n_features : Nat := 40

/-- n_query = 2**13 from the parameter cell. -/
def n_query : Nat := 2 ^ 13

/-- n_neighbors = 4 from the parameter cell. -/
def n_neighbors : Nat := 4

/-- Ascending insertion into a sorted list, the helper for npSortRow. -/
def insertAsc (x : Int) : List Int → List Int
  | [] => [x]
  | y :: ys => if x ≤ y then x :: y :: ys else y :: insertAsc x ys

/-- numpy.sort applied to one row: sort ascending. -/
def npSortRow (l : List Int) : List Int := l.foldr insertAsc []

/-- Python semantics of the expression diff != 0 where diff is a list of
lists and 0 an int: operands of distinct, non-numeric types are never equal
under the Python equality protocol, so the comparison evaluates to True
regardless of the contents of diff. -/
def pyListNeInt (_diff : List (List Int)) (_k : Int) : Bool := true

/-- Python semantics of list subscription with a bool index: bool is an int
subclass with True = 1 and False = 0; an out-of-range index raises
IndexError, modelled as none. -/
def pyBoolIndex (l : List (List Int)) (b : Bool) : Option (List Int) :=
  l.get? (if b then 1 else 0)

/-- The index comparison cell of the nearest-neighbors notebook:
sk_sorted = np.sort(I_sk, axis=1), cuml_sorted = np.sort(I_cuml.values, axis=1),
diff = [list(map(lambda x, y: x - y, ii, jj)) for ii, jj in zip(sk_sorted, cuml_sorted)],
passed = (len(diff[diff != 0]) / n_samples) < 1e-9.
Python zip and map over two lists truncate to the shorter one, embedded by
List.zip and List.zipWith.  Returns the value of passed, or none when the
subscription raises IndexError. -/
def indexCompareCell (iSk iCuml : List (List Int)) : Option Bool :=
  let sk_sorted := iSk.map npSortRow
  let cuml_sorted := iCuml.map npSortRow
  let diff := (sk_sorted.zip cuml_sorted).map fun p =>
    List.zipWith (fun x y => x - y) p.1 p.2
  match pyBoolIndex diff (pyListNeInt diff 0) with
  | none => none
  | some row => some (decide ((row.length : ℚ) / (n_samples : ℚ) < 1 / 1000000000))

/-- The string printed by the index comparison cell. -/
def indexVerdict (iSk iCuml : List (List Int)) : Option String :=
  (indexCompareCell iSk iCuml).map fun b =>
    "compare knn: cuml vs sklearn indexes " ++ (if b then "equal" else "NOT equal")

end KnnDemo

namespace CuPyIntro

/-- The mutable notebook state that the timing cells of Intro_to_CuPy.ipynb
read and write: the variables cpu_time and gpu_time and the transcript of
printed values.  Wall-clock readings of time.time() are external inputs of
each cell. -/
structure TimingState where
  cpu_time : ℚ
  gpu_time : ℚ
  printed : List ℚ
  deriving DecidableEq, Repr

/-- The shape passed to np.ones and cp.ones in the cells under the heading
n = 1000,00,00. -/
def creation10M_shape : List Nat := [1000, 100, 100]

/-- The array creation cell under the heading n = 1000,00,00:
s = time.time(); x_cpu = np.ones((1000,100,100)); e = time.time();
cpu_time = e - s; print(cpu_time); then the same for the GPU with
synchronize, gpu_time = e - s, print(gpu_time); print(cpu_time/gpu_time).
s1, e1, s2, e2 are the four time.time() readings in source order. -/
def creation10MCell (st : TimingState) (s1 e1 s2 e2 : ℚ) : TimingState :=
  let cpu_time := e1 - s1
  let gpu_time := e2 - s2
  { cpu_time := cpu_time, gpu_time := gpu_time,
    printed := st.printed ++ [cpu_time, gpu_time, cpu_time / gpu_time] }

/-- The multiply cell under the heading n = 1000,00,00:
s = time.time(); x_cpu *= 5; e = time.time(); print(cpu_time) -- the source
omits the assignment cpu_time = e - s; then the GPU half with synchronize,
gpu_time = e - s, print(gpu_time); print(cpu_time/gpu_time). -/
def multiply10MCell (st : TimingState) (s1 e1 s2 e2 : ℚ) : TimingState :=
  let gpu_time := e2 - s2
  { cpu_time := st.cpu_time, gpu_time := gpu_time,
    printed := st.printed ++ [st.cpu_time, gpu_time, st.cpu_time / gpu_time] }

end CuPyIntro

/-- Whether a statement is a CuPy GPU operation inside a GPU timing block of
Intro_to_CuPy.ipynb: either cp.ones or in-place array arithmetic on x_gpu. -/
def isGpuOp : Stmt → Bool
  | .arithOp => true
  | .libCall f => f == "cupy.ones"
  | _ => false

/-- The indexes of the statements of b satisfying p. -/
def stmtIndexes (b : List Stmt) (p : Stmt → Bool) : List Nat :=
  (List.range b.length).filter fun i =>
    match b.get? i with
    | some s => p s
    | none => false

/-- There is a synchronize call that comes after every GPU operation and
before every stop timestamp of the block. -/
def syncAfterOpsBeforeStop (b : List Stmt) : Bool :=
  (stmtIndexes b fun s => s == Stmt.syncStmt).any fun i =>
    ((stmtIndexes b isGpuOp).all fun j => decide (j < i)) &&
    ((stmtIndexes b fun s => s == Stmt.timeStopStmt).all fun k => decide (i < k))

/-- The nine GPU timing blocks of Intro_to_CuPy.ipynb, from s = time.time()
to e = time.time() inclusive, in notebook order: array creation and multiply
at shape (1000,1000,100), the three-operation block, creation and multiply at
(100,100,100), creation and multiply at (1000,100,100), and the combined
final cell contributing one creation and one multiply block at
(1000,1000,100). -/
def introGpuTimingBlocks : List (List Stmt) :=
  [[.timeStartStmt, .libCall "cupy.ones", .syncStmt, .timeStopStmt],
   [.timeStartStmt, .arithOp, .syncStmt, .timeStopStmt],
   [.timeStartStmt, .arithOp, .arithOp, .arithOp, .syncStmt, .timeStopStmt],
   [.timeStartStmt, .libCall "cupy.ones", .syncStmt, .timeStopStmt],
   [.timeStartStmt, .arithOp, .syncStmt, .timeStopStmt],
   [.timeStartStmt, .libCall "cupy.ones", .syncStmt, .timeStopStmt],
   [.timeStartStmt, .arithOp, .syncStmt, .timeStopStmt],
   [.timeStartStmt, .libCall "cupy.ones", .syncStmt, .timeStopStmt],
   [.timeStartStmt, .arithOp, .syncStmt, .timeStopStmt]]

noncomputable section

namespace PcaScratch

/-- A = array([[1, 2], [3, 4], [5, 6]]), the 3 by 2 input matrix of the
from-scratch PCA notebook.  numpy float64 values are modelled as reals. -/
def A : Matrix (Fin 3) (Fin 2) ℝ := !![1, 2; 3, 4; 5, 6]

/-- M = mean(A.T, axis=1): the mean over the three entries of each row of
the transpose, that is the mean of each column of A. -/
def M : Fin 2 → ℝ := fun j => (∑ i, A.transpose j i) / 3

/-- C = A - M: subtract the column means, broadcast over rows. -/
def C : Matrix (Fin 3) (Fin 2) ℝ := Matrix.of fun i j => A i j - M j

/-- numpy.cov of a 2 by 3 input with default arguments: each row is a
variable observed 3 times, the row mean is subtracted and the divisor is
N - 1 = 2. -/
def npCov (X : Matrix (Fin 2) (Fin 3) ℝ) : Matrix (Fin 2) (Fin 2) ℝ :=
  Matrix.of fun j k =>
    (∑ i, (X j i - (∑ t, X j t) / 3) * (X k i - (∑ t, X k t) / 3)) / 2

/-- V = cov(C.T). -/
def V : Matrix (Fin 2) (Fin 2) ℝ := npCov C.transpose

/-- The eigenvalue array returned by values, vectors = eig(V) at this input,
as recorded in the executed notebook output: [8., 0.]. -/
def eigValues : Fin 2 → ℝ := ![8, 0]

/-- The eigenvector matrix returned by eig(V) at this input, columns are
unit eigenvectors; the recorded output 0.70710678 is sqrt(2)/2.  The
theorems below verify that these columns are indeed unit eigenvectors of V
for the eigenvalues above. -/
def eigVectors : Matrix (Fin 2) (Fin 2) ℝ :=
  !![Real.sqrt 2 / 2, -(Real.sqrt 2 / 2); Real.sqrt 2 / 2, Real.sqrt 2 / 2]

/-- P = vectors.T.dot(C.T), the projection of the centered data. -/
def P : Matrix (Fin 2) (Fin 3) ℝ := eigVectors.transpose * C.transpose

end PcaScratch

end

/-!
Helper lemmas.
-/

namespace PcaScratch

theorem M_eq : M = ![3, 4] := by
  funext j
  fin_cases j <;>
    simp [M, A, Matrix.transpose_apply, Fin.sum_univ_three] <;> norm_num

theorem C_eq : C = !![-2, -2; 0, 0; 2, 2] := by
  ext i j
  fin_cases i <;> fin_cases j <;>
    simp [C, A, M_eq] <;> norm_num

theorem V_eq : V = !![4, 4; 4, 4] := by
  ext j k
  fin_cases j <;> fin_cases k <;>
    simp [V, npCov, C_eq, Matrix.transpose_apply, Fin.sum_univ_three] <;> norm_num

end PcaScratch

namespace KnnDemo

theorem insertAsc_length (x : Int) (l : List Int) :
    (insertAsc x l).length = l.length + 1 := by
  induction l with
  | nil => rfl
  | cons y ys ih => by_cases h : x ≤ y <;> simp [insertAsc, h, ih]

theorem npSortRow_length (l : List Int) : (npSortRow l).length = l.length := by
  induction l with
  | nil => rfl
  | cons y ys ih =>
      simp only [npSortRow, List.foldr_cons] at *
      rw [insertAsc_length, ih, List.length_cons]

end KnnDemo

/-!
Claim theorems.
-/

/-- Claim C1, counterexample: the claim states that no notebook code of its
own constructs or raises an exception, but the forest-inference notebook
contains a raise statement (the ImportError raised when has_xgboost() is
false). -/
theorem claim_C1_counterexample :
    (forestInferenceDemo.stmts.any isRaiseStmt) = true := by decide

/-- Claim C1, amended: the only notebook statement that constructs and
raises an exception is the xgboost ImportError guard of the forest-inference
notebook, and that guard raises exactly when has_xgboost() returns false;
every other failure propagates uncaught. -/
theorem claim_C1 :
    ((notebooks.filter fun nb => nb.stmts.any isRaiseStmt).map Notebook.name =
      ["Notebooks/kmeans_demo.ipynb (forest inference demo)"]) ∧
    ((forestInferenceDemo.stmts.filter isRaiseStmt).length = 1) ∧
    (∀ has_xgboost : Bool,
      xgbImportCell has_xgboost = Except.ok () ↔ has_xgboost = true) := by
  refine ⟨by decide, by decide, ?_⟩
  intro b
  cases b <;> simp [xgbImportCell]

/-- Claim C3, counterexample: not every notebook times its library calls
with wall-clock instrumentation; the all-notebooks check is false. -/
theorem claim_C3_counterexample :
    (notebooks.all fun nb => timesLibraryCalls nb && printsOrPlots nb) = false := by
  decide

/-- Claim C3, amended: every notebook prints or plots results, and every
notebook except the PCA-from-scratch notebook and the feature-selection
notebook times its library calls with wall-clock instrumentation. -/
theorem claim_C3 :
    (notebooks.all printsOrPlots) = true ∧
    ((notebooks.filter fun nb => !(timesLibraryCalls nb)).map Notebook.name =
      ["Notebooks/Others/Principal Component Analysis from Scratch.ipynb",
       "unnamed/part_001 (feature selection notebook)"]) := by
  constructor <;> decide

/-- Claim C5: in every GPU timing block of the CuPy demo there are GPU
operations, a single stop timestamp, and a synchronize call placed after
every GPU operation and before the stop timestamp; each block occurs
verbatim in the notebook trace, and there are nine such blocks. -/
theorem claim_C5 :
    introGpuTimingBlocks.length = 9 ∧
    (introGpuTimingBlocks.all fun b => decide (b <:+: introToCuPy.stmts)) = true ∧
    (introGpuTimingBlocks.all fun b =>
      !(stmtIndexes b isGpuOp).isEmpty &&
      (b.count Stmt.syncStmt == 1) && (b.count Stmt.timeStopStmt == 1)) = true ∧
    introGpuTimingBlocks.all syncAfterOpsBeforeStop = true := by
  refine ⟨rfl, by decide, by decide, by decide⟩

/-- Claim C6, counterexample: the claim states that no notebook execution
creates state that outlives the kernel, but the forest-inference notebook
writes a file on disk. -/
theorem claim_C6_counterexample :
    writesPersistentState forestInferenceDemo = true := by decide

/-- Claim C6, amended: every notebook except the forest-inference notebook
creates only ephemeral in-kernel state; the forest-inference notebook is the
single exception, persisting exactly the serialized XGBoost model file
xgb.model via bst.save_model(model_path). -/
theorem claim_C6 :
    ((notebooks.filter writesPersistentState).map Notebook.name =
      ["Notebooks/kmeans_demo.ipynb (forest inference demo)"]) ∧
    fileWritesOf forestInferenceDemo = ["xgb.model"] := by
  constructor <;> decide

/-- Claim C7, counterexample: the claim states that notebook execution
writes no output files, but the forest-inference notebook writes one. -/
theorem claim_C7_counterexample :
    fileWritesOf forestInferenceDemo ≠ [] := by decide

/-- Claim C7, amended: across all notebooks the only file produced is
xgb.model, written by the forest-inference notebook and read back by its
ForestInference.load call; the only other file input consumed is the CSV
dataset read four times by the feature-selection notebook. -/
theorem claim_C7 :
    (notebooks.map fileWritesOf =
      [[], [], [], ["xgb.model"], [], [], []]) ∧
    (notebooks.map fileReadsOf =
      [[], [], [], ["xgb.model"], [], [],
       ["pima-indians-diabetes.csv", "pima-indians-diabetes.csv",
        "pima-indians-diabetes.csv", "pima-indians-diabetes.csv"]]) := by
  constructor <;> decide

/-- Claim C4: on A = [[1,2],[3,4],[5,6]] the from-scratch PCA pipeline gives
column means M = [3,4], centered data C = [[-2,-2],[0,0],[2,2]], covariance
V = [[4,4],[4,4]]; the recorded eig output (values [8,0] and the recorded
vector matrix) consists of unit eigenvectors of V for those eigenvalues; and
the projected rows P.T are [[-2*sqrt 2, 0], [0,0], [2*sqrt 2, 0]]. -/
theorem claim_C4 :
    PcaScratch.M = ![3, 4] ∧
    PcaScratch.C = !![-2, -2; 0, 0; 2, 2] ∧
    PcaScratch.V = !![4, 4; 4, 4] ∧
    PcaScratch.eigValues = ![8, 0] ∧
    (∀ k : Fin 2, PcaScratch.V.mulVec (fun j => PcaScratch.eigVectors j k) =
      fun j => PcaScratch.eigValues k * PcaScratch.eigVectors j k) ∧
    (∀ k : Fin 2, (∑ j, PcaScratch.eigVectors j k ^ 2) = 1) ∧
    PcaScratch.P.transpose =
      !![-(2 * Real.sqrt 2), 0; 0, 0; 2 * Real.sqrt 2, 0] := by
  refine ⟨PcaScratch.M_eq, PcaScratch.C_eq, PcaScratch.V_eq, rfl, ?_, ?_, ?_⟩
  · intro k
    funext j
    rw [PcaScratch.V_eq]
    fin_cases k <;> fin_cases j <;>
      simp [Matrix.mulVec, Matrix.dotProduct, Fin.sum_univ_two,
        PcaScratch.eigVectors, PcaScratch.eigValues] <;>
      ring
  · have h : Real.sqrt 2 ^ 2 = 2 := Real.sq_sqrt (by norm_num)
    intro k
    fin_cases k <;>
      simp [PcaScratch.eigVectors, Fin.sum_univ_two, Matrix.vecHead,
        Matrix.vecTail] <;>
      ring_nf <;> rw [h] <;> norm_num
  · ext i j
    simp only [Matrix.transpose_apply, PcaScratch.P, Matrix.mul_apply,
      PcaScratch.C_eq]
    fin_cases i <;> fin_cases j <;>
      simp [Fin.sum_univ_two, PcaScratch.eigVectors, Matrix.transpose_apply,
        Matrix.vecHead, Matrix.vecTail] <;>
      ring

/-- Claim C9: the k-means comparison predicate passed is one-sided.  It is
true for every pair of scores with cuml_score less than or equal to
sk_score, however large the gap, and it is false exactly when cuml_score
exceeds sk_score by at least threshold = 1e-4; it is not symmetric in its
two arguments. -/
theorem claim_C9 :
    (∀ cuml_score sk_score : ℚ, cuml_score ≤ sk_score →
      KmeansDemo.passed cuml_score sk_score = true ∧
      KmeansDemo.verdict cuml_score sk_score =
        "compare kmeans: cuml vs sklearn labels_ are equal") ∧
    (∀ cuml_score sk_score : ℚ,
      KmeansDemo.passed cuml_score sk_score = false ↔
      sk_score + KmeansDemo.threshold ≤ cuml_score) ∧
    KmeansDemo.passed 0 1 = true ∧ KmeansDemo.passed 1 0 = false := by
  refine ⟨?_, ?_,
    by norm_num [KmeansDemo.passed, KmeansDemo.threshold],
    by norm_num [KmeansDemo.passed, KmeansDemo.threshold]⟩
  · intro c s h
    have hp : KmeansDemo.passed c s = true := by
      simp only [KmeansDemo.passed, decide_eq_true_iff]
      have : c - s ≤ 0 := by linarith
      calc c - s ≤ 0 := this
        _ < KmeansDemo.threshold := by norm_num [KmeansDemo.threshold]
    exact ⟨hp, by simp [KmeansDemo.verdict, hp]⟩
  · intro c s
    simp only [KmeansDemo.passed, decide_eq_false_iff_not, not_lt]
    constructor <;> intro h <;> linarith

/-- Claim C9, witness: instantiating the one-sided comparison at the widely
separated scores cuml_score = -5 and sk_score = 0 the cell still reports
equal. -/
theorem claim_C9_witness :
    KmeansDemo.passed (-5) 0 = true ∧
    KmeansDemo.verdict (-5) 0 =
      "compare kmeans: cuml vs sklearn labels_ are equal" :=
  (claim_C9.1 (-5) 0 (by norm_num))

/-- Claim C10, counterexample: the multiply cell under the heading
n = 1000,00,00 operates on the array created with shape (1000,100,100),
which has ten million elements, not one hundred million as the claim
states. -/
theorem claim_C10_counterexample :
    CuPyIntro.creation10M_shape.prod = 10000000 ∧
    CuPyIntro.creation10M_shape.prod ≠ 100000000 := by
  constructor <;> decide

/-- Claim C10, amended: in the ten-million-element multiply cell of the CuPy
demo, cpu_time is never reassigned, so after the preceding creation cell and
the multiply cell run in order, the multiply cell leaves cpu_time equal to
the creation cell elapsed CPU time ce1 - cs1 and prints that stale value as
its first value and as the numerator of its speedup ratio, instead of the
elapsed time me1 - ms1 of the multiplication it performs; moreover the
multiply cell never writes cpu_time at all. -/
theorem claim_C10 (st : CuPyIntro.TimingState)
    (cs1 ce1 cs2 ce2 ms1 me1 ms2 me2 : ℚ) :
    (CuPyIntro.multiply10MCell (CuPyIntro.creation10MCell st cs1 ce1 cs2 ce2)
        ms1 me1 ms2 me2).cpu_time = ce1 - cs1 ∧
    (CuPyIntro.multiply10MCell (CuPyIntro.creation10MCell st cs1 ce1 cs2 ce2)
        ms1 me1 ms2 me2).printed =
      st.printed ++ [ce1 - cs1, ce2 - cs2, (ce1 - cs1) / (ce2 - cs2)]
        ++ [ce1 - cs1, me2 - ms2, (ce1 - cs1) / (me2 - ms2)] ∧
    (∀ st2 : CuPyIntro.TimingState,
      (CuPyIntro.multiply10MCell st2 ms1 me1 ms2 me2).cpu_time = st2.cpu_time) := by
  refine ⟨rfl, ?_, fun st2 => rfl⟩
  simp [CuPyIntro.creation10MCell, CuPyIntro.multiply10MCell]

/-- Claim C8: the printed verdict of the nearest-neighbors index comparison
cell is independent of the contents of the two index arrays.  Because diff
is a Python list, diff != 0 is True and diff[diff != 0] selects the single
row diff[1] of length n_neighbors, so passed equals
(n_neighbors / n_samples) < 1e-9, which is false for n_neighbors = 4 and
n_samples = 2^17; the cell prints NOT equal for every pair of index arrays
of the configured shape, including two identical arrays. -/
theorem claim_C8 (iSk iCuml : List (List Int))
    (hSk : 2 ≤ iSk.length) (hCu : 2 ≤ iCuml.length)
    (hSkRow : ∀ r ∈ iSk, r.length = KnnDemo.n_neighbors)
    (hCuRow : ∀ r ∈ iCuml, r.length = KnnDemo.n_neighbors) :
    KnnDemo.indexCompareCell iSk iCuml =
      some (decide ((KnnDemo.n_neighbors : ℚ) / (KnnDemo.n_samples : ℚ) <
        1 / 1000000000)) ∧
    KnnDemo.indexCompareCell iSk iCuml = some false ∧
    KnnDemo.indexVerdict iSk iCuml =
      some "compare knn: cuml vs sklearn indexes NOT equal" := by
  rcases iSk with _ | ⟨a0, iSk1⟩
  · simp at hSk
  rcases iSk1 with _ | ⟨a1, ta⟩
  · simp at hSk
  rcases iCuml with _ | ⟨b0, iCuml1⟩
  · simp at hCu
  rcases iCuml1 with _ | ⟨b1, tb⟩
  · simp at hCu
  have ha1 : a1.length = KnnDemo.n_neighbors := hSkRow a1 (by simp)
  have hb1 : b1.length = KnnDemo.n_neighbors := hCuRow b1 (by simp)
  have hrowlen :
      (List.zipWith (fun x y : Int => x - y)
        (KnnDemo.npSortRow a1) (KnnDemo.npSortRow b1)).length =
      KnnDemo.n_neighbors := by
    rw [List.length_zipWith, KnnDemo.npSortRow_length, KnnDemo.npSortRow_length,
      ha1, hb1, min_self]
  have hcell : KnnDemo.indexCompareCell (a0 :: a1 :: ta) (b0 :: b1 :: tb) =
      some (decide ((KnnDemo.n_neighbors : ℚ) / (KnnDemo.n_samples : ℚ) <
        1 / 1000000000)) := by
    simp only [KnnDemo.indexCompareCell, KnnDemo.pyListNeInt, KnnDemo.pyBoolIndex,
      List.map_cons, List.zip_cons_cons, if_true, List.get?_cons_succ,
      List.get?_cons_zero]
    rw [hrowlen]
  have hval : (decide ((KnnDemo.n_neighbors : ℚ) / (KnnDemo.n_samples : ℚ) <
      1 / 1000000000)) = false := by
    simp only [decide_eq_false_iff_not, not_lt]
    norm_num [KnnDemo.n_neighbors, KnnDemo.n_samples]
  refine ⟨hcell, ?_, ?_⟩
  · rw [hcell, hval]
  · unfold KnnDemo.indexVerdict
    rw [hcell, hval]
    rfl

/-- Claim C8, witness: for two identical concrete index arrays with two rows
of four neighbors each, the comparison cell still reports NOT equal. -/
theorem claim_C8_witness :
    KnnDemo.indexCompareCell [[0, 1, 2, 3], [4, 5, 6, 7]]
      [[0, 1, 2, 3], [4, 5, 6, 7]] = some false ∧
    KnnDemo.indexVerdict [[0, 1, 2, 3], [4, 5, 6, 7]]
      [[0, 1, 2, 3], [4, 5, 6, 7]] =
      some "compare knn: cuml vs sklearn indexes NOT equal" :=
  ⟨(claim_C8 [[0, 1, 2, 3], [4, 5, 6, 7]] [[0, 1, 2, 3], [4, 5, 6, 7]]
      (by decide) (by decide) (by decide) (by decide)).2.1,
   (claim_C8 [[0, 1, 2, 3], [4, 5, 6, 7]] [[0, 1, 2, 3], [4, 5, 6, 7]]
      (by decide) (by decide) (by decide) (by decide)).2.2⟩

/-- Claim C10, witness: with creation timestamps 0 and 3 (elapsed CPU
creation time 3) and multiply timestamps 10, 14, 10, 11 (elapsed CPU
multiply time 4), the multiply cell still holds and prints cpu_time = 3. -/
theorem claim_C10_witness :
    (CuPyIntro.multiply10MCell
      (CuPyIntro.creation10MCell ⟨0, 0, []⟩ 0 3 0 1) 10 14 10 11).cpu_time = 3 := by
  have h := claim_C10 ⟨0, 0, []⟩ 0 3 0 1 10 14 10 11
  rw [h.1]
  norm_num
